import Mathlib

/-!
Verification development for the wavewatch repository.

Two subsystems are embedded from the source:

* `src/wavewatch/llm/summarizer.py`, `parse_best_times_from_analysis`:
  a best-effort regex scrape of AI narrative text.  Python's `re` module
  is modelled by a small backtracking engine (`mall`) over a regex AST
  (`RE`) whose alternation/greedy/lazy priority order matches CPython's
  backtracking order; each pattern string of the source is transcribed
  literally into an AST value (`patSection1`, `patTimeCore`, ...).

* `src/wavewatch/api/data_fetcher.py`, `_get_station_metadata` and
  `_get_noaa_tide_data`: the NOAA station resolver and tide reconciler.
  HTTP calls are modelled by oracles (`Fetch`), float arithmetic by exact
  rationals, and `datetime` values by integer seconds on the proleptic
  Gregorian timeline (Python `datetime + timedelta` is exactly linear
  arithmetic on that line; `strftime` is re-implemented from the civil
  calendar via `civilFromDays`).
-/

/-! ### Python string helpers -/

/-- Characters Python's `str.strip()` removes (ASCII whitespace). -/
def pyWsChar (c : Char) : Bool :=
  c = ' ' || c = '\t' || c = '\n' || c = '\r' || c = '\x0b' || c = '\x0c'

/-- Python `str.strip()`. -/
def pyStrip (s : String) : String :=
  (((s.data.dropWhile pyWsChar).reverse.dropWhile pyWsChar).reverse).asString

/-- Python `str.lower()` (ASCII range, sufficient for the table keys used). -/
def pyLower (s : String) : String := (s.data.map Char.toLower).asString

/-- Python `str.upper()` (ASCII range, sufficient for the tide-type letters). -/
def pyUpper (s : String) : String := (s.data.map Char.toUpper).asString

/-- Python `int()` on a string of decimal digits (the only use sites pass
digit-only regex captures). -/
def digitsToNat (s : String) : Nat :=
  s.data.foldl (fun n c => 10 * n + (c.toNat - 48)) 0

/-- Slice `l[a:b]` of a character list, as a string. -/
def listSlice (l : List Char) (a b : Nat) : String :=
  ((l.drop a).take (b - a)).asString

/-! ### Regex engine

A direct backtracking matcher for the subset of Python `re` used by the
source: literals, character classes, `.`, alternation, bounded and
unbounded repetition (greedy and lazy), one capture group per pattern,
lookahead, `^`/`$`, and the `IGNORECASE`/`DOTALL`/`MULTILINE` flags.
`mall` returns every way the node can match, in CPython's backtracking
priority order, so the head of the final list is the match `re.search`
reports.  All repetition bodies appearing in the transcribed patterns
consume at least one character, which the progress guard in the
repetition case relies on. -/

/-- Character-class item: literal member, range, `\d` or `\s`. -/
inductive CCls where
  | ch (c : Char)
  | rng (lo hi : Char)
  | dig
  | spc
deriving Repr

/-- Regex AST. -/
inductive RE where
  | eps
  | lit (c : Char)
  | cls (neg : Bool) (items : List CCls)
  | dot
  | seq (a b : RE)
  | alt (a b : RE)
  | rep (lo : Nat) (hi : Option Nat) (lazy_ : Bool) (a : RE)
  | grp (n : Nat) (a : RE)
  | look (a : RE)
  | bol
  | eol
deriving Repr

/-- Flags of a compiled pattern: `re.IGNORECASE`, `re.DOTALL`, `re.MULTILINE`. -/
structure ReFlags where
  icase : Bool
  dotall : Bool
  multiline : Bool
deriving Repr

def flNone : ReFlags := ⟨false, false, false⟩
def flI : ReFlags := ⟨true, false, false⟩
def flID : ReFlags := ⟨true, true, false⟩
def flIM : ReFlags := ⟨true, false, true⟩

/-- Matcher state: absolute position, remaining input, previous character
(for `^` with `MULTILINE`), recorded capture spans (group, start, end). -/
structure MSt where
  pos : Nat
  rest : List Char
  prev : Option Char
  caps : List (Nat × Nat × Nat)

def charEqCI (ic : Bool) (c c' : Char) : Bool :=
  if ic then c.toLower = c'.toLower else c = c'

/-- `\s` set of Python `re` (ASCII part; inputs here are ASCII). -/
def reSpace (c : Char) : Bool :=
  c = ' ' || c = '\t' || c = '\n' || c = '\r' || c = '\x0b' || c = '\x0c'

def ccMatch (ic : Bool) (c' : Char) : CCls → Bool
  | .ch c => charEqCI ic c c'
  | .rng lo hi => lo.val ≤ c'.val && c'.val ≤ hi.val
  | .dig => c'.isDigit
  | .spc => reSpace c'

def clsMatch (ic : Bool) (neg : Bool) (items : List CCls) (c' : Char) : Bool :=
  let b := items.any (ccMatch ic c')
  if neg then !b else b

def eolAt (fl : ReFlags) (rest : List Char) : Bool :=
  match rest with
  | [] => true
  | c :: rs => c = '\n' && (fl.multiline || rs.isEmpty)

def bolAt (fl : ReFlags) (st : MSt) : Bool :=
  st.pos = 0 || (fl.multiline && st.prev = some '\n')

/-- All matches of a node from a state, in backtracking priority order.
`fuel` bounds the recursion depth only (each call decrements it once);
callers pass a depth budget far above what the transcribed patterns can
use, so running out of fuel is unreachable on the inputs evaluated here. -/
def mall (fl : ReFlags) : Nat → RE → MSt → List MSt
  | 0, _, _ => []
  | fuel + 1, r, st =>
    match r with
    | .eps => [st]
    | .lit c =>
      match st.rest with
      | [] => []
      | c' :: rs =>
        if charEqCI fl.icase c c' then [⟨st.pos + 1, rs, some c', st.caps⟩] else []
    | .cls neg items =>
      match st.rest with
      | [] => []
      | c' :: rs =>
        if clsMatch fl.icase neg items c' then [⟨st.pos + 1, rs, some c', st.caps⟩] else []
    | .dot =>
      match st.rest with
      | [] => []
      | c' :: rs =>
        if c' = '\n' && !fl.dotall then [] else [⟨st.pos + 1, rs, some c', st.caps⟩]
    | .seq a b => (mall fl fuel a st).flatMap (fun st2 => mall fl fuel b st2)
    | .alt a b => mall fl fuel a st ++ mall fl fuel b st
    | .grp n a =>
      (mall fl fuel a st).map (fun st2 => ⟨st2.pos, st2.rest, st2.prev, (n, st.pos, st2.pos) :: st2.caps⟩)
    | .look a =>
      if (mall fl fuel a st).isEmpty then [] else [st]
    | .bol => if bolAt fl st then [st] else []
    | .eol => if eolAt fl st.rest then [st] else []
    | .rep lo hi lz a =>
      if lo ≠ 0 then
        (mall fl fuel a st).flatMap (fun st2 =>
          mall fl fuel (.rep (lo - 1) (hi.map (· - 1)) lz a) st2)
      else
        match hi with
        | some 0 => [st]
        | _ =>
          let more :=
            (mall fl fuel a st).flatMap (fun st2 =>
              if st2.pos = st.pos then []
              else mall fl fuel (.rep 0 (hi.map (· - 1)) lz a) st2)
          if lz then st :: more else more ++ [st]

/-- Depth budget for `mall`: generous, see `mall`'s docstring. -/
def reFuel (n : Nat) : Nat := (n + 2) * 2000

/-- A match: start, end, capture spans. -/
structure ReMatch where
  ms : Nat
  me : Nat
  caps : List (Nat × Nat × Nat)
deriving DecidableEq

/-- `re.search` scan: try each start position left to right, first success
wins; within one position, `mall`'s head is the reported match. -/
def searchAux (fl : ReFlags) (r : RE) (fuel : Nat) :
    Nat → List Char → Option Char → Option ReMatch
  | pos, rest, prev =>
    match (mall fl fuel r ⟨pos, rest, prev, []⟩).head? with
    | some st => some ⟨pos, st.pos, st.caps⟩
    | none =>
      match rest with
      | [] => none
      | c :: rs => searchAux fl r fuel (pos + 1) rs (some c)

def reSearch (fl : ReFlags) (r : RE) (s : String) : Option ReMatch :=
  searchAux fl r (reFuel s.data.length) 0 s.data none

/-- `re.finditer`: repeated search, resuming after each match (one past it
if the match were empty, as in CPython; the patterns used never match
empty). -/
def finditerGo (fl : ReFlags) (r : RE) (l : List Char) : Nat → Nat → List ReMatch
  | 0, _ => []
  | fuel + 1, pos =>
    if pos > l.length then []
    else
      match searchAux fl r (reFuel l.length) pos (l.drop pos)
          (if pos = 0 then none else l.get? (pos - 1)) with
      | none => []
      | some m =>
        m :: finditerGo fl r l fuel (if m.me > m.ms then m.me else m.me + 1)

def reFinditer (fl : ReFlags) (r : RE) (s : String) : List ReMatch :=
  finditerGo fl r s.data (s.data.length + 2) 0

/-- `match.group(1)` of a search result over the original string (empty if
the group did not participate; in every pattern below group 1 is
mandatory, so this case is unreachable on a successful search). -/
def group1 (s : String) (m : ReMatch) : String :=
  match m.caps.find? (fun c => c.1 = 1) with
  | some (_, a, b) => listSlice s.data a b
  | none => ""

/-- `re.sub` with a literal replacement string. -/
def reSub (fl : ReFlags) (r : RE) (repl : String) (s : String) : String :=
  let ms := reFinditer fl r s
  let l := s.data
  let rec go (pos : Nat) : List ReMatch → String
    | [] => listSlice l pos l.length
    | m :: rest => listSlice l pos m.ms ++ repl ++ go m.me rest
  go 0 ms

/-! ### Pattern-building helpers -/

/-- Literal string as a regex sequence. -/
def reStr (s : String) : RE :=
  match s.data with
  | [] => .eps
  | c :: cs => cs.foldl (fun r c' => .seq r (.lit c')) (.lit c)

def reOpt (r : RE) : RE := .rep 0 (some 1) false r
def reStar (r : RE) : RE := .rep 0 none false r
def rePlus (r : RE) : RE := .rep 1 none false r
def reStarLazy (r : RE) : RE := .rep 0 none true r
def rePlusLazy (r : RE) : RE := .rep 1 none true r

def reSeqs : List RE → RE
  | [] => .eps
  | [r] => r
  | r :: rs => .seq r (reSeqs rs)

def reAlts : List RE → RE
  | [] => .eps
  | [r] => r
  | r :: rs => .alt r (reAlts rs)

/-- `[0-9]` / `\d`. -/
def clsDigit : RE := .cls false [.dig]
/-- `[^\d]`. -/
def clsNonDigit : RE := .cls true [.dig]
/-- `\s`. -/
def clsSpace : RE := .cls false [.spc]
/-- `[:\s]`. -/
def clsColonSpace : RE := .cls false [.ch ':', .spc]
/-- `[:.]`. -/
def clsColonDot : RE := .cls false [.ch ':', .ch '.']
/-- `[-–—]` (hyphen, en dash, em dash). -/
def clsDash : RE := .cls false [.ch '-', .ch '–', .ch '—']
/-- `[ \t]`. -/
def clsBlank : RE := .cls false [.ch ' ', .ch '\t']

/-- `(?:AM|PM|am|pm)`. -/
def patAmPm : RE := reAlts [reStr "AM", reStr "PM", reStr "am", reStr "pm"]

/-! ### The patterns of `parse_best_times_from_analysis`, transcribed -/

/-- `[0-9]{1,2}[:.]?[0-9]{0,2}\s*(?:AM|PM|am|pm)?(?:\s*[-–—]\s*[0-9]{1,2}[:.]?[0-9]{0,2}\s*(?:AM|PM|am|pm))?`
— the core time-range pattern shared by the three time regexes
(summarizer.py lines 227, 234, 254). -/
def patTimeCore : RE :=
  reSeqs
    [ .rep 1 (some 2) false clsDigit
    , reOpt clsColonDot
    , .rep 0 (some 2) false clsDigit
    , reStar clsSpace
    , reOpt patAmPm
    , reOpt (reSeqs
        [ reStar clsSpace, clsDash, reStar clsSpace
        , .rep 1 (some 2) false clsDigit
        , reOpt clsColonDot
        , .rep 0 (some 2) false clsDigit
        , reStar clsSpace
        , patAmPm ]) ]

/-- Lookahead body `(?=\*\*3\.|3\.\s*\*\*|specific recommendations|notable changes|$)`
shared by the first two section patterns (lines 203, 210). -/
def patSectionEnd : RE :=
  reAlts
    [ reStr "**3."
    , reSeqs [reStr "3.", reStar clsSpace, reStr "**"]
    , reStr "specific recommendations"
    , reStr "notable changes"
    , .eol ]

/-- Line 203: `(?i)(?:2\.\s*\*\*best time to surf\*\*:?\s*\*\*|best time to surf:?\s*\*\*)[:\s]*(.*?)(?=...)`
(searched with `re.DOTALL`). -/
def patSection1 : RE :=
  reSeqs
    [ .alt
        (reSeqs [reStr "2.", reStar clsSpace, reStr "**best time to surf**",
                 reOpt (.lit ':'), reStar clsSpace, reStr "**"])
        (reSeqs [reStr "best time to surf", reOpt (.lit ':'), reStar clsSpace, reStr "**"])
    , reStar clsColonSpace
    , .grp 1 (reStarLazy .dot)
    , .look patSectionEnd ]

/-- Line 210: `(?i)(?:2\.\s*\*\*best times to surf\*\*:|best times to surf:)[:\s]*(.*?)(?=...)`. -/
def patSection2 : RE :=
  reSeqs
    [ .alt
        (reSeqs [reStr "2.", reStar clsSpace, reStr "**best times to surf**", .lit ':'])
        (reSeqs [reStr "best times to surf", .lit ':'])
    , reStar clsColonSpace
    , .grp 1 (reStarLazy .dot)
    , .look patSectionEnd ]

/-- Line 215: `(?i)best time to surf.*?\n(.*?)(?=\n\*\*|\n\d+\.\s*\*\*|specific recommendations|notable changes|$)`. -/
def patSection3 : RE :=
  reSeqs
    [ reStr "best time to surf"
    , reStarLazy .dot
    , .lit '\n'
    , .grp 1 (reStarLazy .dot)
    , .look (reAlts
        [ reSeqs [.lit '\n', reStr "**"]
        , reSeqs [.lit '\n', rePlus clsDigit, .lit '.', reStar clsSpace, reStr "**"]
        , reStr "specific recommendations"
        , reStr "notable changes"
        , .eol ]) ]

/-- Line 227: `^(<time core>)[:\s]*` (searched with `IGNORECASE | MULTILINE`). -/
def patTimeAtStart : RE :=
  reSeqs [.bol, .grp 1 patTimeCore, reStar clsColonSpace]

/-- Line 234: `(<time core>):?` (used with `finditer`, `IGNORECASE`). -/
def patTimeIter : RE :=
  reSeqs [.grp 1 patTimeCore, reOpt (.lit ':')]

/-- Line 254: `(<time core>)[:\s]*` (per-entry time extraction). -/
def patTimeEntry : RE :=
  reSeqs [.grp 1 patTimeCore, reStar clsColonSpace]

/-- Line 264: `(?:\*\s*)?(?:rating|score|rated)[:\s]*(\d{1,3})(?:\s*/?\s*100)?`. -/
def patRating : RE :=
  reSeqs
    [ reOpt (.seq (.lit '*') (reStar clsSpace))
    , reAlts [reStr "rating", reStr "score", reStr "rated"]
    , reStar clsColonSpace
    , .grp 1 (.rep 1 (some 3) false clsDigit)
    , reOpt (reSeqs [reStar clsSpace, reOpt (.lit '/'), reStar clsSpace, reStr "100"]) ]

/-- `\d+\.?\d*` building block of the figure patterns. -/
def patNum : RE := reSeqs [rePlus clsDigit, reOpt (.lit '.'), reStar clsDigit]

/-- Line 268: `(?:\*\s*)?wave[^\d]*?(?:height|size)?[:\s]*(\d+\.?\d*\s*[-–—]\s*\d+\.?\d*ft)`. -/
def patWaveRange : RE :=
  reSeqs
    [ reOpt (.seq (.lit '*') (reStar clsSpace))
    , reStr "wave"
    , reStarLazy clsNonDigit
    , reOpt (.alt (reStr "height") (reStr "size"))
    , reStar clsColonSpace
    , .grp 1 (reSeqs [patNum, reStar clsSpace, clsDash, reStar clsSpace, patNum, reStr "ft"]) ]

/-- Line 271: fallback `(?:\*\s*)?wave[^\d]*?(?:height|size)?[:\s]*(\d+\.?\d*ft)`. -/
def patWaveSingle : RE :=
  reSeqs
    [ reOpt (.seq (.lit '*') (reStar clsSpace))
    , reStr "wave"
    , reStarLazy clsNonDigit
    , reOpt (.alt (reStr "height") (reStr "size"))
    , reStar clsColonSpace
    , .grp 1 (.seq patNum (reStr "ft")) ]

/-- Line 275: `(?:\*\s*)?period[^\d]*?[:\s]*(\d+)\s*s(?:ec(?:ond)?s?)?`. -/
def patPeriod : RE :=
  reSeqs
    [ reOpt (.seq (.lit '*') (reStar clsSpace))
    , reStr "period"
    , reStarLazy clsNonDigit
    , reStar clsColonSpace
    , .grp 1 (rePlus clsDigit)
    , reStar clsSpace
    , .lit 's'
    , reOpt (reSeqs [reStr "ec", reOpt (reStr "ond"), reOpt (.lit 's')]) ]

/-- Line 279: `(?:\*\s*)?wind[^\d]*?(?:speed)?[:\s]*(\d+\.?\d*\s*[-–—]\s*\d+\.?\d*mph)`. -/
def patWindRange : RE :=
  reSeqs
    [ reOpt (.seq (.lit '*') (reStar clsSpace))
    , reStr "wind"
    , reStarLazy clsNonDigit
    , reOpt (reStr "speed")
    , reStar clsColonSpace
    , .grp 1 (reSeqs [patNum, reStar clsSpace, clsDash, reStar clsSpace, patNum, reStr "mph"]) ]

/-- Line 282: fallback `(?:\*\s*)?wind[^\d]*?(?:speed)?[:\s]*(\d+\.?\d*mph)`. -/
def patWindSingle : RE :=
  reSeqs
    [ reOpt (.seq (.lit '*') (reStar clsSpace))
    , reStr "wind"
    , reStarLazy clsNonDigit
    , reOpt (reStr "speed")
    , reStar clsColonSpace
    , .grp 1 (.seq patNum (reStr "mph")) ]

/-- Line 286: `explanation[:\s]+(.+?)(?=\n\s*(?:specific recommendations|notable changes|\d+\.\s*\*\*|$))`
(searched with `IGNORECASE | DOTALL`). -/
def patExplanation1 : RE :=
  reSeqs
    [ reStr "explanation"
    , rePlus clsColonSpace
    , .grp 1 (rePlusLazy .dot)
    , .look (reSeqs
        [ .lit '\n'
        , reStar clsSpace
        , reAlts
            [ reStr "specific recommendations"
            , reStr "notable changes"
            , reSeqs [rePlus clsDigit, .lit '.', reStar clsSpace, reStr "**"]
            , .eol ] ]) ]

/-- Line 289: fallback `(?:\*\*)?explanation[:\s]+(.+)`. -/
def patExplanation2 : RE :=
  reSeqs
    [ reOpt (reStr "**")
    , reStr "explanation"
    , rePlus clsColonSpace
    , .grp 1 (rePlus .dot) ]

/-- Line 295: old-format fallback `(?:reason|explanation)[:\s]+(.+)`. -/
def patReason : RE :=
  reSeqs
    [ .alt (reStr "reason") (reStr "explanation")
    , rePlus clsColonSpace
    , .grp 1 (rePlus .dot) ]

/-- Line 304: `\*\*`. -/
def patBold : RE := reStr "**"
/-- Line 305: `\*`. -/
def patStar : RE := .lit '*'
/-- Line 308: `[ \t]+`. -/
def patBlanks : RE := rePlus clsBlank
/-- Line 309: `\n[ \t]*\n+`. -/
def patBlankLines : RE := reSeqs [.lit '\n', reStar clsBlank, rePlus (.lit '\n')]
/-- Line 312: `[:]\s*$`. -/
def patTrailColon : RE := reSeqs [.cls false [.ch ':'], reStar clsSpace, .eol]


/-! ### The best-window extractor (`parse_best_times_from_analysis`) -/

/-- One parsed best-time record (the dict appended at summarizer.py
lines 316-323). -/
structure BestTime where
  time : String
  rating : Option Nat
  wave_height_range : Option String
  period : Option Nat
  wind_speed_range : Option String
  reason : Option String
deriving DecidableEq, Repr

/-- Lines 203-221: locate the best-times section, trying the three
patterns in order; `group(1)` of the first that matches. -/
def locateSection (t : String) : Option String :=
  match reSearch flID patSection1 t with
  | some m => some (group1 t m)
  | none =>
    match reSearch flID patSection2 t with
    | some m => some (group1 t m)
    | none =>
      match reSearch flID patSection3 t with
      | some m => some (group1 t m)
      | none => none

/-- Lines 238-242: split the section at the start positions of the
`finditer` time matches; each entry runs to the next start (or the end). -/
def splitEntries (l : List Char) : List Nat → List String
  | [] => []
  | [a] => [listSlice l a l.length]
  | a :: b :: rest => listSlice l a b :: splitEntries l (b :: rest)

/-- Lines 227-245: the entry list — the whole section if a time stands at
a line start, else the `finditer` split, else the whole section. -/
def entriesOf (sec : String) : List String :=
  match reSearch flIM patTimeAtStart sec with
  | some _ => [sec]
  | none =>
    if (reFinditer flI patTimeIter sec).isEmpty then [sec]
    else splitEntries sec.data ((reFinditer flI patTimeIter sec).map (fun m => m.ms))

/-- Lines 301-312: markdown/whitespace cleanup of the explanation text. -/
def cleanupReason (reason : String) : String :=
  let r := reSub flNone patBold "" reason
  let r := reSub flNone patStar "" r
  let r := reSub flNone patBlanks " " r
  let r := reSub flNone patBlankLines "\n\n" r
  let r := pyStrip r
  pyStrip (reSub flNone patTrailColon "" r)

/-- Python `str.endswith(':')` / drop of the final character. -/
def dropTrailColon (s : String) : String :=
  match s.data.getLast? with
  | some ':' => pyStrip (s.data.dropLast.asString)
  | _ => s

/-- Lines 247-323: parse one entry into a record (`none` both for the
blank-entry `continue` and for a missing time match). -/
def entryRecord (entry0 : String) : Option BestTime :=
  let entry := pyStrip entry0
  if entry = "" then none
  else
    match reSearch flI patTimeEntry entry with
    | none => none
    | some tm =>
      let time_str := dropTrailColon (pyStrip (group1 entry tm))
      let rating := (reSearch flI patRating entry).map (fun m => digitsToNat (group1 entry m))
      let wave_height_range :=
        match reSearch flI patWaveRange entry with
        | some m => some (pyStrip (group1 entry m))
        | none => (reSearch flI patWaveSingle entry).map (fun m => pyStrip (group1 entry m))
      let period := (reSearch flI patPeriod entry).map (fun m => digitsToNat (group1 entry m))
      let wind_speed_range :=
        match reSearch flI patWindRange entry with
        | some m => some (pyStrip (group1 entry m))
        | none => (reSearch flI patWindSingle entry).map (fun m => pyStrip (group1 entry m))
      let reason0 :=
        match reSearch flID patExplanation1 entry with
        | some m => some (pyStrip (group1 entry m))
        | none =>
          match reSearch flID patExplanation2 entry with
          | some m => some (pyStrip (group1 entry m))
          | none => (reSearch flID patReason entry).map (fun m => pyStrip (group1 entry m))
      let reason :=
        match reason0 with
        | some r0 =>
          let c := cleanupReason r0
          if c = "" then none else some c
        | none => none
      if time_str = "" then none
      else some ⟨time_str, rating, wave_height_range, period, wind_speed_range, reason⟩

/-- The candidate records built by the entry loop (lines 247-323). -/
def bestTimeCandidates (t : String) : List BestTime :=
  match locateSection t with
  | none => []
  | some sec => (entriesOf sec).filterMap entryRecord

/-- Sort key of line 326: `x.get('rating', 0) or 0` (a missing or null
rating counts as 0). -/
def ratingKey (b : BestTime) : Nat := b.rating.getD 0

/-- Stable descending insertion (earlier elements stay first on ties),
matching Python's stable `list.sort(..., reverse=True)`. -/
def insertDesc (x : BestTime) : List BestTime → List BestTime
  | [] => [x]
  | y :: ys => if ratingKey x < ratingKey y then y :: insertDesc x ys else x :: y :: ys

def pySortDesc : List BestTime → List BestTime
  | [] => []
  | x :: xs => insertDesc x (pySortDesc xs)

/-- `parse_best_times_from_analysis` (summarizer.py lines 187-335): the
section lookup, entry loop, rating sort and `[:1]` truncation.  The
Python body's `try`/`except` is total here: no step of the embedded body
can raise. -/
def parse_best_times_from_analysis (t : String) : List BestTime :=
  if (bestTimeCandidates t).isEmpty then []
  else (pySortDesc (bestTimeCandidates t)).take 1

/-! ### Calendar and time formatting

Python `datetime` values are modelled as integer seconds on the
proleptic Gregorian timeline; `datetime + timedelta(minutes=k)` is then
exactly `+ 60*k`.  `strftime('%Y-%m-%dT%H:%M:%S+00:00')` is rebuilt from
the civil date via the standard era-based `civilFromDays` algorithm. -/

/-- Civil date (year, month, day) of a day count from 1970-01-01. -/
def civilFromDays (z0 : Int) : Int × Nat × Nat :=
  let z := z0 + 719468
  let era := z.fdiv 146097
  let doe := (z - era * 146097).toNat
  let yoe := (doe - doe / 1460 + doe / 36524 - doe / 146096) / 365
  let y : Int := (yoe : Int) + era * 400
  let doy := doe - (365 * yoe + yoe / 4 - yoe / 100)
  let mp := (5 * doy + 2) / 153
  let d := doy - (153 * mp + 2) / 5 + 1
  let m := if mp < 10 then mp + 3 else mp - 9
  (y + (if m ≤ 2 then 1 else 0), m, d)

def pad2 (n : Nat) : String := if n < 10 then "0" ++ toString n else toString n

def pad4 (y : Int) : String :=
  let n := y.toNat
  if n < 10 then "000" ++ toString n
  else if n < 100 then "00" ++ toString n
  else if n < 1000 then "0" ++ toString n
  else toString n

/-- Everything of `strftime('%Y-%m-%dT%H:%M:%S+00:00')` before the fixed
UTC suffix. -/
def isoBody (secs : Int) : String :=
  let days := secs.fdiv 86400
  let sod := (secs - days * 86400).toNat
  let c := civilFromDays days
  pad4 c.1 ++ "-" ++ pad2 c.2.1 ++ "-" ++ pad2 c.2.2 ++ "T" ++
    pad2 (sod / 3600) ++ ":" ++ pad2 (sod % 3600 / 60) ++ ":" ++ pad2 (sod % 60)

/-- `strftime('%Y-%m-%dT%H:%M:%S+00:00')` (data_fetcher.py lines 311, 358). -/
def fmtISO (secs : Int) : String := isoBody secs ++ "+00:00"

/-- Python `round(x, 2)` idealised over exact rationals, with half-up
tie-breaking (float representation noise and the banker tie rule of
CPython are immaterial at the values handled here). -/
def round2 (q : ℚ) : ℚ := ((⌊q * 100 + 1 / 2⌋ : ℤ) : ℚ) / 100

/-- The meters→feet factor `3.28084` of the source. -/
def mToFt : ℚ := 328084 / 100000

/-! ### Data model of the tide path -/

/-- Outcome of one `requests.get(...).json()` call: a raised transport
exception, or a response with a status code whose `.json()` either
parses to a payload or raises (the `Except.error` message). -/
inductive Fetch (α : Type) where
  | exn (msg : String)
  | resp (code : Nat) (body : Except String α)

/-- The `tidepredoffsets` field of the station JSON, probed with
`isinstance(..., dict)` and `.get('self')` (line 181). -/
inductive TpoField where
  | absent
  | dict (self_url : Option String)
  | nondict
deriving DecidableEq

def tpoUrl : TpoField → Option String
  | .dict u => u
  | _ => none

/-- One element of the `stations` list of the metadata JSON. -/
structure StationJson where
  stype : Option String
  reference_id : Option String
  tidepredoffsets : TpoField
deriving DecidableEq

/-- Payload of the station-metadata endpoint (an absent `stations` key
behaves like an empty list: both fall through to `return None`). -/
structure MetaPayload where
  stations : List StationJson
deriving DecidableEq

/-- Payload of the offsets endpoint, fields read with
`.get(..., 0)` / `.get(..., 1.0)` defaults (lines 191-194). -/
structure OffPayload where
  timeOffsetHighTide : Option Int
  timeOffsetLowTide : Option Int
  heightOffsetHighTide : Option ℚ
  heightOffsetLowTide : Option ℚ
deriving DecidableEq

/-- The offsets record stored under `'tidepredoffsets'`. -/
structure TideOffsets where
  time_high : Int
  time_low : Int
  height_high : ℚ
  height_low : ℚ
deriving DecidableEq

/-- The metadata dict built at lines 178-182 (plus the offsets added at
line 190 when their fetch succeeds). -/
structure StationMetadata where
  stype : String
  reference_id : Option String
  tidepredoffsets_url : Option String
  tidepredoffsets : Option TideOffsets
deriving DecidableEq

/-- The `'t'` string of a raw prediction as `strptime` sees it: parsed by
`'%Y-%m-%d %H:%M'`, by the `'%Y-%m-%d %H:%M:%S'` fallback, or by neither
(in which case the second `strptime` raises the carried message).  The
parsed value is the instant the civil fields denote, in seconds. -/
inductive TimeStr where
  | hm (secs : Int)
  | hms (secs : Int)
  | bad (msg : String)
deriving DecidableEq

instance exceptDecEq {ε α : Type} [DecidableEq ε] [DecidableEq α] :
    DecidableEq (Except ε α) := fun x y =>
  match x, y with
  | .ok a, .ok b =>
    if h : a = b then isTrue (by rw [h]) else isFalse (fun he => by cases he; exact h rfl)
  | .error a, .error b =>
    if h : a = b then isTrue (by rw [h]) else isFalse (fun he => by cases he; exact h rfl)
  | .ok _, .error _ => isFalse (fun h => by cases h)
  | .error _, .ok _ => isFalse (fun h => by cases h)

/-- One element of the `predictions` JSON list, after the `.get` defaults
of lines 278-280: `type` (missing key gives `""`), `t`, and `v` — for
which `float(...)` either yields a value or raises the carried message
(a missing `v` key gives `float(0)`, i.e. `Except.ok 0`). -/
structure RawPred where
  ptype : String
  t : TimeStr
  v : Except String ℚ
deriving DecidableEq

/-- Payload of the predictions endpoint (`.get('predictions', [])`). -/
structure PredPayload where
  predictions : List RawPred
deriving DecidableEq

/-- One reconciled output point `{'time': ..., 'tide': ...}`. -/
structure TidePoint where
  time : String
  tide : ℚ
deriving DecidableEq

/-- Return value of `_get_noaa_tide_data`: the success dict of lines
315-320 / 362-366, or one of the `{'error': ...}` dicts. -/
inductive TideResult where
  | ok (tide_conditions : List TidePoint) (station_id : String)
      (reference_station_id : Option String) (station_name : String)
  | error (msg : String)
deriving DecidableEq

/-- The upstream behaviour an entire `_get_noaa_tide_data` run can
observe: the metadata GET, the offsets GET, and the predictions GET. -/
structure TideOracle where
  metaFetch : Fetch MetaPayload
  offFetch : Fetch OffPayload
  predFetch : Fetch PredPayload

structure MetaOracle where
  metaFetch : Fetch MetaPayload
  offFetch : Fetch OffPayload

/-- The memoization cache `self._station_metadata_cache` (newest entry
first; `List.lookup` finds it, matching dict overwrite semantics). -/
abbrev MetaCache : Type := List (String × StationMetadata)

/-- Python truthiness of an optional string (`None` and `""` are falsy). -/
def strTruthy : Option String → Bool
  | none => false
  | some s => !(s == "")

/-! ### `_get_station_metadata` (data_fetcher.py lines 149-205) -/

/-- The metadata dict as first built at lines 178-182 (no offsets yet). -/
def mdBase (si : StationJson) : StationMetadata :=
  ⟨si.stype.getD "", si.reference_id, tpoUrl si.tidepredoffsets, none⟩

/-- Line 190: the offsets record added after a successful offsets fetch. -/
def mdWithOffsets (si : StationJson) (od : OffPayload) : StationMetadata :=
  { mdBase si with
    tidepredoffsets := some
      ⟨od.timeOffsetHighTide.getD 0, od.timeOffsetLowTide.getD 0,
       od.heightOffsetHighTide.getD 1, od.heightOffsetLowTide.getD 1⟩ }

/-- Lines 184-197: fetch the offset values when the station is
subordinate and advertises an offsets URL; any failure of that fetch is
swallowed (warning only) and the offset-less metadata is kept. -/
def resolveMeta (si : StationJson) (off : Fetch OffPayload) : StationMetadata :=
  if (mdBase si).stype == "S" && strTruthy (mdBase si).tidepredoffsets_url then
    match off with
    | .exn _ => mdBase si
    | .resp c ob =>
      if c = 200 then
        match ob with
        | .error _ => mdBase si
        | .ok od => mdWithOffsets si od
      else mdBase si
  else mdBase si

def get_station_metadata (cache : MetaCache) (station_id : String) (o : MetaOracle) :
    Option StationMetadata × MetaCache :=
  match List.lookup station_id cache with
  | some m => (some m, cache)
  | none =>
    match o.metaFetch with
    | .exn _ => (none, cache)
    | .resp code body =>
      if code = 200 then
        match body with
        | .error _ => (none, cache)
        | .ok data =>
          match data.stations with
          | [] => (none, cache)
          | station_info :: _ =>
            (some (resolveMeta station_info o.offFetch),
             (station_id, resolveMeta station_info o.offFetch) :: cache)
      else (none, cache)

/-! ### `_get_noaa_tide_data` (data_fetcher.py lines 207-374) -/

/-- The hard-coded `self.tide_stations` map (lines 39-55). -/
def tide_stations : List (String × String) :=
  [ ("pleasure point", "9413745"), ("santa cruz", "9413745"), ("malibu", "9410660")
  , ("pipeline", "1612340"), ("trestles", "9410660"), ("mavericks", "9413450")
  , ("huntington beach", "9410660"), ("venice beach", "9410660")
  , ("manhattan beach", "9410660"), ("hermosa beach", "9410660")
  , ("redondo beach", "9410660"), ("el segundo", "9410660")
  , ("scripps", "9410230"), ("tourmaline", "9410230"), ("linda mar", "9414290") ]

/-- The `target_date` argument.  Only its parse behaviour is observable:
`None` uses `datetime.now()`, a well-formed `'YYYY-MM-DD'` string parses,
a malformed string makes `strptime` raise (the carried message, caught by
the outer handler of lines 372-374), and a `datetime` object passes
through. -/
inductive DateInput where
  | absent
  | goodStr
  | badStr (msg : String)
  | dtObj
deriving DecidableEq

/-- Offsets used by the subordinate branch: the cached record, or the
`.get` pass-through defaults `0, 0, 1.0, 1.0` of lines 252-255 when no
offsets were stored. -/
def effOffsets (m : StationMetadata) : TideOffsets :=
  m.tidepredoffsets.getD ⟨0, 0, 1, 1⟩

/-- Lines 277-305, one prediction of the subordinate branch: `float(v)`,
metres→feet, `strptime(t)`, the height factor and minute offset selected
by `type == 'H'` (anything else gets the Low treatment), offset applied
after scaling.  An `Except.error` is a raise reaching the handler of
lines 323-324. -/
def procSubPred (offs : TideOffsets) (p : RawPred) : Except String (Int × ℚ) :=
  let tide_type := pyUpper p.ptype
  match p.v with
  | .error m => .error m
  | .ok tide_value_m =>
    let tide_value_ft := tide_value_m * mToFt
    match p.t with
    | .bad m => .error m
    | .hm s | .hms s =>
      let scaled :=
        if tide_type = "H" then (tide_value_ft * offs.height_high, offs.time_high)
        else (tide_value_ft * offs.height_low, offs.time_low)
      .ok (s + 60 * scaled.2, scaled.1)

/-- Lines 346-355, one prediction of the harmonic branch: `float(v)`,
metres→feet, `strptime(t)`, time left unshifted. -/
def procHarPred (p : RawPred) : Except String (Int × ℚ) :=
  match p.v with
  | .error m => .error m
  | .ok tide_value_m =>
    let tide_value_ft := tide_value_m * mToFt
    match p.t with
    | .bad m => .error m
    | .hm s | .hms s => .ok (s, tide_value_ft)

/-- Lines 308-313 / 357-360: emit one `{'time', 'tide'}` dict. -/
def emitTide (pt : Int × ℚ) : TidePoint := ⟨fmtISO pt.1, round2 pt.2⟩

/-- The `for pred in predictions_list` loop: process points in order; the
first raise aborts the whole branch (it reaches the surrounding
`except`). -/
def procList (f : RawPred → Except String (Int × ℚ)) :
    List RawPred → Except String (List (Int × ℚ))
  | [] => .ok []
  | p :: ps =>
    match f p with
    | .error m => .error m
    | .ok x =>
      match procList f ps with
      | .error m => .error m
      | .ok xs => .ok (x :: xs)

/-- Lines 257-324: the subordinate branch — fetch predictions from the
*reference* station, apply offsets pointwise, with the error dicts of
lines 273, 322, 324. -/
def subBranch (station_id reference_station_id : String) (offs : TideOffsets)
    (pf : Fetch PredPayload) : TideResult :=
  match pf with
  | .exn m => .error ("Error fetching predictions from reference station: " ++ m)
  | .resp code body =>
    if code = 200 then
      match body with
      | .error m => .error ("Error fetching predictions from reference station: " ++ m)
      | .ok pd =>
        if pd.predictions.isEmpty then
          .error ("No tide predictions available from reference station " ++ reference_station_id)
        else
          match procList (procSubPred offs) pd.predictions with
          | .error m => .error ("Error fetching predictions from reference station: " ++ m)
          | .ok hl =>
            .ok (hl.map emitTide) station_id (some reference_station_id)
              ("Station " ++ station_id ++ " (subordinate, ref: " ++ reference_station_id ++ ")")
    else
      .error ("Failed to fetch predictions from reference station " ++ reference_station_id ++
        ": HTTP " ++ toString code)

/-- Lines 325-370: the harmonic branch — fetch predictions for the
station itself, unit-convert pointwise, with the error dicts of lines
342, 368, 370. -/
def harBranch (station_id : String) (pf : Fetch PredPayload) : TideResult :=
  match pf with
  | .exn m => .error ("Error fetching predictions: " ++ m)
  | .resp code body =>
    if code = 200 then
      match body with
      | .error m => .error ("Error fetching predictions: " ++ m)
      | .ok pd =>
        if pd.predictions.isEmpty then
          .error ("No tide predictions available for station " ++ station_id)
        else
          match procList procHarPred pd.predictions with
          | .error m => .error ("Error fetching predictions: " ++ m)
          | .ok hl => .ok (hl.map emitTide) station_id none ("Station " ++ station_id)
    else
      .error ("Failed to fetch predictions for station " ++ station_id ++
        ": HTTP " ++ toString code)

/-- `_get_noaa_tide_data` (lines 207-374): beach→station lookup, date
parse, metadata resolution, then the subordinate branch when the
metadata is truthy with `type == 'S'` and a truthy `reference_id`, and
the harmonic branch otherwise — including when metadata resolution
failed altogether.  The outer `except` of lines 372-374 catches the
`strptime` raise of a malformed date string (the source also appends a
traceback dump to that message, omitted here). -/
def tideWithStation (cache : MetaCache) (sid : String) (beach_name : String)
    (target_date : DateInput) (o : TideOracle) : TideResult × MetaCache :=
  if sid = "" then (.error ("No tide station found for " ++ beach_name), cache)
  else
    match target_date with
    | .badStr m => (.error ("Error fetching NOAA tide data: " ++ m), cache)
    | _ =>
      match get_station_metadata cache sid ⟨o.metaFetch, o.offFetch⟩ with
      | (some m, cache2) =>
        if m.stype == "S" && strTruthy m.reference_id then
          (subBranch sid (m.reference_id.getD "") (effOffsets m) o.predFetch, cache2)
        else (harBranch sid o.predFetch, cache2)
      | (none, cache2) => (harBranch sid o.predFetch, cache2)

def get_noaa_tide_data (cache : MetaCache) (beach_name : String)
    (target_date : DateInput) (o : TideOracle) : TideResult × MetaCache :=
  tideWithStation cache ((List.lookup (pyLower beach_name) tide_stations).getD "")
    beach_name target_date o

/-- Whether `strptime(target_date, '%Y-%m-%d')` succeeds (lines 227-237);
only `DateInput.badStr` raises. -/
def dateParses : DateInput → Bool
  | .badStr _ => false
  | _ => true

/-- An offsets fetch that fails: transport exception, non-success status,
or a body `.json()` cannot parse (lines 186-197). -/
def offFetchFails : Fetch OffPayload → Prop
  | .exn _ => True
  | .resp c b => c ≠ 200 ∨ ∃ m, b = Except.error m

/-! ### Helper lemmas on the rating sort -/

theorem mem_insertDesc {x a : BestTime} : ∀ {l : List BestTime},
    a ∈ insertDesc x l ↔ a = x ∨ a ∈ l := by
  intro l
  induction l with
  | nil => simp [insertDesc]
  | cons y ys ih =>
    by_cases h : ratingKey x < ratingKey y
    · simp only [insertDesc, if_pos h, List.mem_cons, ih]
      tauto
    · simp only [insertDesc, if_neg h, List.mem_cons]

theorem pySortDesc_head (l : List BestTime) (h : l ≠ []) :
    ∃ w tl, pySortDesc l = w :: tl ∧ w ∈ l ∧ ∀ y ∈ l, ratingKey y ≤ ratingKey w := by
  induction l with
  | nil => exact absurd rfl h
  | cons x xs ih =>
    cases xs with
    | nil =>
      refine ⟨x, [], by simp [pySortDesc, insertDesc], by simp, ?_⟩
      intro y hy
      simp only [List.mem_cons, List.not_mem_nil, or_false] at hy
      subst hy; exact le_refl _
    | cons b bs =>
      obtain ⟨w, tl, heq, hmem, hmax⟩ := ih (by simp)
      by_cases hlt : ratingKey x < ratingKey w
      · refine ⟨w, insertDesc x tl, ?_, List.mem_cons_of_mem _ hmem, ?_⟩
        · rw [pySortDesc, heq]
          simp [insertDesc, hlt]
        · intro y hy
          rcases List.mem_cons.mp hy with h1 | h2
          · subst h1; exact Nat.le_of_lt hlt
          · exact hmax y h2
      · refine ⟨x, w :: tl, ?_, by simp, ?_⟩
        · rw [pySortDesc, heq]
          simp [insertDesc, hlt]
        · intro y hy
          rcases List.mem_cons.mp hy with h1 | h2
          · subst h1; exact le_refl _
          · exact Nat.le_trans (hmax y h2) (Nat.le_of_not_lt hlt)

/-! ### Claim theorems -/

/-- Claim C5: in both the harmonic and the subordinate branch, an empty
predictions list from a successful upstream response yields the
"No tide predictions available" error naming the queried station (the
reference station is the queried one in the subordinate branch), not an
empty tide series. -/
theorem c5_empty_predictions (station_id reference_station_id : String) (offs : TideOffsets) :
    subBranch station_id reference_station_id offs (.resp 200 (.ok ⟨[]⟩)) =
      .error ("No tide predictions available from reference station " ++ reference_station_id) ∧
    harBranch station_id (.resp 200 (.ok ⟨[]⟩)) =
      .error ("No tide predictions available for station " ++ station_id) :=
  ⟨rfl, rfl⟩

/-- Claim C10: `parse_best_times_from_analysis` always returns a list of
length at most one (the sorted candidate list is truncated by `[:1]`,
and the embedded body is total, so it returns rather than raising). -/
theorem c10_at_most_one (s : String) :
    (parse_best_times_from_analysis s).length ≤ 1 := by
  unfold parse_best_times_from_analysis
  cases hb : (bestTimeCandidates s).isEmpty
  · simp only [hb, Bool.false_eq_true, if_false, List.length_take]
    exact Nat.min_le_left _ _
  · simp [hb]

/-- Claim C8: whenever the entry loop extracts several candidate windows,
the function returns exactly one window, and its rating (with a missing
rating counting as 0, as in the sort key `x.get('rating', 0) or 0`) is
maximal among all candidates. -/
theorem c8_single_best_window (t : String)
    (h : 2 ≤ (bestTimeCandidates t).length) :
    ∃ w, parse_best_times_from_analysis t = [w] ∧ w ∈ bestTimeCandidates t ∧
      ∀ y ∈ bestTimeCandidates t, ratingKey y ≤ ratingKey w := by
  have hne : bestTimeCandidates t ≠ [] := by
    intro he
    rw [he] at h
    simp at h
  obtain ⟨w, tl, heq, hmem, hmax⟩ := pySortDesc_head _ hne
  refine ⟨w, ?_, hmem, hmax⟩
  unfold parse_best_times_from_analysis
  have hie : (bestTimeCandidates t).isEmpty = false := by
    cases hbt : bestTimeCandidates t with
    | nil => exact absurd hbt hne
    | cons a as => rfl
  rw [hie]
  simp only [Bool.false_eq_true, if_false]
  rw [heq]
  rfl

/-- Claim C3 (and the Low-default policy): for a well-formed subordinate
raw point, the emitted height is raw metres × 3.28084 × the factor
selected by `type == 'H'`, rounded to 2 decimals after scaling, and the
emitted time is the raw time plus the selected minute offset, formatted
with the literal `+00:00` suffix; a type other than `'H'` — including
anything that is not `'L'` — gets the Low treatment. -/
theorem c3_subordinate_point (offs : TideOffsets) (p : RawPred) (q : ℚ) (s : Int)
    (hv : p.v = Except.ok q) (ht : p.t = TimeStr.hm s ∨ p.t = TimeStr.hms s) :
    Except.map emitTide (procSubPred offs p) = Except.ok
      (⟨fmtISO (s + 60 * (if pyUpper p.ptype = "H" then offs.time_high else offs.time_low)),
        round2 (q * mToFt * (if pyUpper p.ptype = "H" then offs.height_high else offs.height_low))⟩ : TidePoint) ∧
    (∃ pre, fmtISO (s + 60 * (if pyUpper p.ptype = "H" then offs.time_high else offs.time_low)) =
      pre ++ "+00:00") ∧
    (pyUpper p.ptype ≠ "H" →
      Except.map emitTide (procSubPred offs p) = Except.ok
        (⟨fmtISO (s + 60 * offs.time_low), round2 (q * mToFt * offs.height_low)⟩ : TidePoint)) := by
  refine ⟨?_, ⟨isoBody _, rfl⟩, ?_⟩
  · unfold procSubPred
    rw [hv]
    rcases ht with ht | ht <;> rw [ht] <;>
      by_cases hH : pyUpper p.ptype = "H" <;>
        simp [hH, emitTide, Except.map]
  · intro hH
    unfold procSubPred
    rw [hv]
    rcases ht with ht | ht <;> rw [ht] <;>
      simp [hH, emitTide, Except.map]

/-- Claim C4: for a well-formed harmonic raw point, the emitted height is
raw metres × 3.28084 rounded to 2 decimals, and the timestamp is the raw
time unshifted, formatted with the literal `+00:00` suffix. -/
theorem c4_harmonic_point (p : RawPred) (q : ℚ) (s : Int)
    (hv : p.v = Except.ok q) (ht : p.t = TimeStr.hm s ∨ p.t = TimeStr.hms s) :
    Except.map emitTide (procHarPred p) = Except.ok
      (⟨fmtISO s, round2 (q * mToFt)⟩ : TidePoint) ∧
    ∃ pre, fmtISO s = pre ++ "+00:00" := by
  refine ⟨?_, ⟨isoBody _, rfl⟩⟩
  unfold procHarPred
  rw [hv]
  rcases ht with ht | ht <;> rw [ht] <;> simp [emitTide, Except.map]

/-- Claim C6: no exception escapes `_get_noaa_tide_data`.  Every failure
mode of the predictions step — transport exception, non-success status,
unparseable body, or a malformed prediction point (bad `v` float) — is
converted to a tagged error dict carrying the upstream status or
message, in both branches; and on every input the function returns a
plain tagged result (success or error). -/
theorem c6_no_exception_escape (sid ref : String) (offs : TideOffsets)
    (em ej mv : String) (code : Nat) (body : Except String PredPayload)
    (p : RawPred) (ps : List RawPred)
    (hcode : code ≠ 200) (hv : p.v = Except.error mv) :
    subBranch sid ref offs (.exn em) =
      .error ("Error fetching predictions from reference station: " ++ em) ∧
    harBranch sid (.exn em) = .error ("Error fetching predictions: " ++ em) ∧
    subBranch sid ref offs (.resp code body) =
      .error ("Failed to fetch predictions from reference station " ++ ref ++
        ": HTTP " ++ toString code) ∧
    harBranch sid (.resp code body) =
      .error ("Failed to fetch predictions for station " ++ sid ++
        ": HTTP " ++ toString code) ∧
    subBranch sid ref offs (.resp 200 (.error ej)) =
      .error ("Error fetching predictions from reference station: " ++ ej) ∧
    harBranch sid (.resp 200 (.error ej)) = .error ("Error fetching predictions: " ++ ej) ∧
    subBranch sid ref offs (.resp 200 (.ok ⟨p :: ps⟩)) =
      .error ("Error fetching predictions from reference station: " ++ mv) ∧
    harBranch sid (.resp 200 (.ok ⟨p :: ps⟩)) =
      .error ("Error fetching predictions: " ++ mv) ∧
    ∀ (cache : MetaCache) (beach : String) (d : DateInput) (o : TideOracle),
      (∃ e, (get_noaa_tide_data cache beach d o).1 = .error e) ∨
      ∃ tc st rf nm, (get_noaa_tide_data cache beach d o).1 = .ok tc st rf nm := by
  refine ⟨rfl, rfl, ?_, ?_, rfl, rfl, ?_, ?_, ?_⟩
  · simp [subBranch, hcode]
  · simp [harBranch, hcode]
  · simp [subBranch, procList, procSubPred, hv]
  · simp [harBranch, procList, procHarPred, hv]
  · intro cache beach d o
    cases hr : (get_noaa_tide_data cache beach d o).1 with
    | ok tc st rf nm => exact Or.inr ⟨tc, st, rf, nm, rfl⟩
    | error e => exact Or.inl ⟨e, rfl⟩

/-- Claim C9: when the station metadata arrives with type `'S'` and an
offsets URL but the offsets fetch itself fails (exception, non-success
status, or unparseable body), the station is still classified
Subordinate, the stored metadata carries no offsets record — so the
subordinate branch falls back to the pass-through defaults
`time_high=0, time_low=0, height_high=1.0, height_low=1.0` — and the
offset-less metadata is still inserted into the memoization cache. -/
theorem c9_offsets_degrade (cache : MetaCache) (sid : String) (o : MetaOracle)
    (si : StationJson)
    (hc : List.lookup sid cache = none)
    (hm : o.metaFetch = Fetch.resp 200 (Except.ok ⟨[si]⟩))
    (ht : si.stype = some "S")
    (hurl : strTruthy (tpoUrl si.tidepredoffsets) = true)
    (hoff : offFetchFails o.offFetch) :
    get_station_metadata cache sid o =
      (some ⟨"S", si.reference_id, tpoUrl si.tidepredoffsets, none⟩,
       (sid, (⟨"S", si.reference_id, tpoUrl si.tidepredoffsets, none⟩ : StationMetadata)) :: cache) ∧
    effOffsets ⟨"S", si.reference_id, tpoUrl si.tidepredoffsets, none⟩ = ⟨0, 0, 1, 1⟩ := by
  have hbase : mdBase si = ⟨"S", si.reference_id, tpoUrl si.tidepredoffsets, none⟩ := by
    unfold mdBase
    rw [ht]
    rfl
  have hres : resolveMeta si o.offFetch = mdBase si := by
    unfold resolveMeta
    rcases hoo : o.offFetch with m | ⟨c, b⟩
    · simp [hbase, hurl]
    · rw [hoo] at hoff
      unfold offFetchFails at hoff
      by_cases hc2 : c = 200
      · subst hc2
        rcases hoff with hbad | ⟨m, hb⟩
        · exact absurd rfl hbad
        · subst hb
          simp [hbase, hurl]
      · simp [hbase, hurl, hc2]
  have : get_station_metadata cache sid o =
      (some (resolveMeta si o.offFetch), (sid, resolveMeta si o.offFetch) :: cache) := by
    unfold get_station_metadata
    rw [hc, hm]
    simp
  rw [this, hres, hbase]
  exact ⟨rfl, rfl⟩

/-- Claim C2 (amended): when station-metadata resolution fails, the tide
lookup does *not* report tide data unavailable — it falls through to the
harmonic branch, fetching predictions for the beach's own mapped station
(never for any other station); only that fetch's own outcome decides the
result. -/
theorem c2_metadata_failure_falls_through (cache : MetaCache) (beach : String)
    (d : DateInput) (o : TideOracle) (sid : String)
    (hsid : (List.lookup (pyLower beach) tide_stations).getD "" = sid)
    (hne : sid ≠ "")
    (hdate : dateParses d = true)
    (hmeta : get_station_metadata cache sid ⟨o.metaFetch, o.offFetch⟩ = (none, cache)) :
    get_noaa_tide_data cache beach d o = (harBranch sid o.predFetch, cache) := by
  unfold get_noaa_tide_data
  rw [hsid]
  unfold tideWithStation
  rw [if_neg hne]
  cases d with
  | badStr m => simp [dateParses] at hdate
  | absent => rw [hmeta]
  | goodStr => rw [hmeta]
  | dtObj => rw [hmeta]

/-- Claim C7 (amended): the extractor's time pattern requires only one or
two digits (optionally `:`/`.` plus up to two more digits, an *optional*
case-insensitive AM/PM, and an optional dash-joined second time); when
that pattern matches nowhere in the located section — neither in the
`finditer` scan nor in the stripped section — no window is returned. -/
theorem c7_no_time_no_window (t sec : String)
    (hsec : locateSection t = some sec)
    (hiter : reFinditer flI patTimeIter sec = [])
    (hentry : reSearch flI patTimeEntry (pyStrip sec) = none) :
    parse_best_times_from_analysis t = [] := by
  have he : entryRecord sec = none := by
    unfold entryRecord
    by_cases h0 : pyStrip sec = ""
    · simp [h0]
    · simp [h0, hentry]
  have hent : entriesOf sec = [sec] := by
    unfold entriesOf
    cases hs : reSearch flIM patTimeAtStart sec with
    | some m => rfl
    | none =>
      rw [hiter]
      rfl
  have hcand : bestTimeCandidates t = [] := by
    unfold bestTimeCandidates
    rw [hsec]
    show List.filterMap entryRecord (entriesOf sec) = []
    rw [hent]
    simp [he]
  simp [parse_best_times_from_analysis, hcand]

set_option maxRecDepth 200000

/-- Claim C1 counterexample: on the §8 golden input verbatim (no markdown
bold after the heading), the first two section patterns require a
literal `**` and fail; the loosest pattern consumes the whole heading
line — including the time range — so the section starts at the Rating
line, the fallback scan splits at every number, and the extractor
returns a single window whose time is the bare "80" taken from
"Rating: 80/100" with every other field null, not the record the claim
asserts. -/
theorem c1_counterexample :
    parse_best_times_from_analysis "Best Time to Surf: 8:00 AM - 9:00 AM\n* Rating: 80/100\n* Wave Height: 4.2-4.8ft\n* Wave Period: 14s\n* Wind Speed: 0.6-1.2mph\nExplanation: clean conditions" =
      [⟨"80", none, none, none, none, none⟩] ∧
    parse_best_times_from_analysis "Best Time to Surf: 8:00 AM - 9:00 AM\n* Rating: 80/100\n* Wave Height: 4.2-4.8ft\n* Wave Period: 14s\n* Wind Speed: 0.6-1.2mph\nExplanation: clean conditions" ≠
      [⟨"8:00 AM - 9:00 AM", some 80, some "4.2-4.8ft", some 14, some "0.6-1.2mph",
        some "clean conditions"⟩] := by
  have h1 : parse_best_times_from_analysis "Best Time to Surf: 8:00 AM - 9:00 AM\n* Rating: 80/100\n* Wave Height: 4.2-4.8ft\n* Wave Period: 14s\n* Wind Speed: 0.6-1.2mph\nExplanation: clean conditions" =
      [⟨"80", none, none, none, none, none⟩] := by decide
  refine ⟨h1, ?_⟩
  rw [h1]
  decide

/-- Claim C1 (amended): with the heading in the markdown-bold form the
parser is written for — `"Best Time to Surf:** 8:00 AM - 9:00 AM"` —
followed by the same §8 lines, extraction returns exactly the window the
claim describes. -/
theorem c1_golden_with_bold_heading :
    parse_best_times_from_analysis "Best Time to Surf:** 8:00 AM - 9:00 AM\n* Rating: 80/100\n* Wave Height: 4.2-4.8ft\n* Wave Period: 14s\n* Wind Speed: 0.6-1.2mph\nExplanation: clean conditions" =
      [⟨"8:00 AM - 9:00 AM", some 80, some "4.2-4.8ft", some 14, some "0.6-1.2mph",
        some "clean conditions"⟩] := by
  decide

/-- Claim C7 counterexample: the located section "Rating: 80/100"
contains no time in H:MM AM/PM form at all, yet the extractor returns a
window — with time "80" — because the AM/PM part of the time pattern is
optional, so any one-or-two-digit number matches. -/
theorem c7_counterexample :
    locateSection "Best Time to Surf:** Rating: 80/100" = some "Rating: 80/100" ∧
    parse_best_times_from_analysis "Best Time to Surf:** Rating: 80/100" =
      [⟨"80", none, none, none, none, none⟩] := by
  constructor
  · decide
  · decide

/-- Witness for C7 (amended) at a concrete digit-free section. -/
theorem c7_no_time_no_window_witness :
    locateSection "Best Time to Surf:** nothing here" = some "nothing here" ∧
    reFinditer flI patTimeIter "nothing here" = [] ∧
    reSearch flI patTimeEntry (pyStrip "nothing here") = none ∧
    parse_best_times_from_analysis "Best Time to Surf:** nothing here" = [] :=
  ⟨by decide, by decide, by decide,
   c7_no_time_no_window _ "nothing here" (by decide) (by decide) (by decide)⟩

/-- Witness for C8 on an input whose section splits into two candidate
windows. -/
theorem c8_single_best_window_witness :
    2 ≤ (bestTimeCandidates "Best Time to Surf:** Rating: 80/100").length ∧
    ∃ w, parse_best_times_from_analysis "Best Time to Surf:** Rating: 80/100" = [w] ∧
      w ∈ bestTimeCandidates "Best Time to Surf:** Rating: 80/100" ∧
      ∀ y ∈ bestTimeCandidates "Best Time to Surf:** Rating: 80/100",
        ratingKey y ≤ ratingKey w :=
  ⟨by decide, c8_single_best_window _ (by decide)⟩

/-- Claim C2 counterexample: the station-metadata fetch raises, so
resolution yields no metadata — and the tide lookup nevertheless
returns a successful tide series, produced by the harmonic branch from
the beach's own station, instead of a lookup-failure result. -/
theorem c2_counterexample :
    get_noaa_tide_data [] "malibu" DateInput.absent
      ⟨Fetch.exn "connection refused", Fetch.exn "offline",
       Fetch.resp 200 (Except.ok ⟨[⟨"H", TimeStr.hm 0, Except.ok 1⟩]⟩)⟩ =
      (TideResult.ok [⟨"1970-01-01T00:00:00+00:00", round2 (1 * mToFt)⟩] "9410660" none
        "Station 9410660", []) ∧
    round2 (1 * mToFt) = 82 / 25 := by
  refine ⟨rfl, ?_⟩
  norm_num [round2, mToFt]

/-- Witness for C2 (amended) at a concrete failing metadata oracle. -/
theorem c2_metadata_failure_falls_through_witness :
    (List.lookup (pyLower "Malibu") tide_stations).getD "" = "9410660" ∧
    "9410660" ≠ "" ∧
    dateParses DateInput.goodStr = true ∧
    get_station_metadata [] "9410660" ⟨Fetch.resp 404 (Except.ok ⟨[]⟩), Fetch.exn "x"⟩ =
      (none, []) ∧
    get_noaa_tide_data [] "Malibu" DateInput.goodStr
      ⟨Fetch.resp 404 (Except.ok ⟨[]⟩), Fetch.exn "x", Fetch.exn "connection reset"⟩ =
      (harBranch "9410660" (Fetch.exn "connection reset"), []) :=
  ⟨by decide, by decide, rfl, by decide,
   c2_metadata_failure_falls_through [] "Malibu" DateInput.goodStr
     ⟨Fetch.resp 404 (Except.ok ⟨[]⟩), Fetch.exn "x", Fetch.exn "connection reset"⟩
     "9410660" (by decide) (by decide) rfl (by decide)⟩

/-- Witness for C3 at a concrete subordinate point: lowercase type "h"
counts as High, height = 0.5 m × 3.28084 × 1.1 rounded to 1.80 ft, time
shifted by +10 minutes and stamped UTC. -/
theorem c3_subordinate_point_witness :
    (RawPred.mk "h" (TimeStr.hm 3600) (Except.ok (1/2))).v = Except.ok (1/2 : ℚ) ∧
    Except.map emitTide
        (procSubPred ⟨10, -20, 11/10, 9/10⟩ (RawPred.mk "h" (TimeStr.hm 3600) (Except.ok (1/2)))) =
      Except.ok (⟨"1970-01-01T01:10:00+00:00", 9/5⟩ : TidePoint) := by
  refine ⟨rfl, ?_⟩
  have h := (c3_subordinate_point ⟨10, -20, 11/10, 9/10⟩
    ⟨"h", TimeStr.hm 3600, Except.ok (1/2)⟩ (1/2) 3600 rfl (Or.inl rfl)).1
  rw [h]
  show Except.ok (⟨"1970-01-01T01:10:00+00:00", round2 (1/2 * mToFt * (11/10))⟩ : TidePoint) =
    Except.ok (⟨"1970-01-01T01:10:00+00:00", 9/5⟩ : TidePoint)
  have h2 : round2 (1/2 * mToFt * (11/10)) = 9/5 := by norm_num [round2, mToFt]
  rw [h2]

/-- Witness for C4 at a concrete harmonic point: 2 m × 3.28084 rounded
to 6.56 ft, timestamp unshifted and stamped UTC. -/
theorem c4_harmonic_point_witness :
    (RawPred.mk "L" (TimeStr.hms 86400) (Except.ok 2)).v = Except.ok (2 : ℚ) ∧
    Except.map emitTide (procHarPred ⟨"L", TimeStr.hms 86400, Except.ok 2⟩) =
      Except.ok (⟨"1970-01-02T00:00:00+00:00", 164/25⟩ : TidePoint) := by
  refine ⟨rfl, ?_⟩
  have h := (c4_harmonic_point ⟨"L", TimeStr.hms 86400, Except.ok 2⟩ 2 86400 rfl (Or.inr rfl)).1
  rw [h]
  show Except.ok (⟨"1970-01-02T00:00:00+00:00", round2 (2 * mToFt)⟩ : TidePoint) =
    Except.ok (⟨"1970-01-02T00:00:00+00:00", 164/25⟩ : TidePoint)
  have h2 : round2 (2 * mToFt) = 164/25 := by norm_num [round2, mToFt]
  rw [h2]

/-- Witness for C6 at concrete failing fetches. -/
theorem c6_no_exception_escape_witness :
    (503 : Nat) ≠ 200 ∧
    (RawPred.mk "H" (TimeStr.hm 0) (Except.error "could not convert string to float")).v =
      Except.error "could not convert string to float" ∧
    subBranch "9413745" "9414290" ⟨0, 0, 1, 1⟩ (Fetch.resp 503 (Except.ok ⟨[]⟩)) =
      TideResult.error "Failed to fetch predictions from reference station 9414290: HTTP 503" := by
  refine ⟨by decide, rfl, ?_⟩
  have h := c6_no_exception_escape "9413745" "9414290" ⟨0, 0, 1, 1⟩ "boom" "Expecting value"
    "could not convert string to float" 503 (Except.ok ⟨[]⟩)
    ⟨"H", TimeStr.hm 0, Except.error "could not convert string to float"⟩ []
    (by decide) rfl
  have h3 := h.2.2.1
  rw [h3]
  decide

/-- Witness for C9 at a concrete subordinate station whose offsets fetch
raises. -/
theorem c9_offsets_degrade_witness :
    List.lookup "9413745" ([] : MetaCache) = none ∧
    offFetchFails (Fetch.exn "offline") ∧
    get_station_metadata [] "9413745"
      ⟨Fetch.resp 200 (Except.ok ⟨[⟨some "S", some "9414290", TpoField.dict (some "u")⟩]⟩),
       Fetch.exn "offline"⟩ =
      (some ⟨"S", some "9414290", some "u", none⟩,
       [("9413745", (⟨"S", some "9414290", some "u", none⟩ : StationMetadata))]) ∧
    effOffsets ⟨"S", some "9414290", some "u", none⟩ = ⟨0, 0, 1, 1⟩ := by
  refine ⟨rfl, trivial, ?_, rfl⟩
  have h := c9_offsets_degrade [] "9413745"
    ⟨Fetch.resp 200 (Except.ok ⟨[⟨some "S", some "9414290", TpoField.dict (some "u")⟩]⟩),
     Fetch.exn "offline"⟩
    ⟨some "S", some "9414290", TpoField.dict (some "u")⟩ rfl rfl rfl (by decide) trivial
  exact h.1
